import Mathlib

/-!
Verification of the Coordination Core of the 5014 energy-trading multi-agent
system: the Dependency-Resolution Hub (`src/agents/facilitating.py`,
`FacilitatingAgent.MultiAgentHandler`) and the Auction Coordinator
(`src/agents/negotiation.py`, `NegotiationAgent.TradingBehaviour`).

The embedding models wall-clock instants and monetary/energy quantities as
rationals (Python floats are used only for arithmetic-free comparisons and
additions here, so exact rationals capture the control flow faithfully),
ledger-resident timestamps and wei amounts as naturals, and account
addresses as strings, exactly as the source compares them.  Ledger RPC
calls can raise in Python; each Coordinator operation receives its call
results explicitly: `txOk : Bool` for the bare transaction, `Option
CloseInfo` for the close transaction plus its read-backs, and
`balanceRead : Option ℚ` for the balance reads performed while logging
(`none` meaning `web3.eth.get_balance` raises, as it does for a
connection-level ledger failure).  The except handlers of start_auction,
bid and reveal perform an unguarded `get_balance` call, so when the
balance read fails the handler itself raises and the exception escapes
the operation; this is recorded in the result (`raised` flag, or a `none`
return value for start_auction).  closeAuction alone guards its handler's
event log, so it absorbs every failure and returns plainly.
-/

namespace EnergyMAS

/-! ## Dependency-Resolution Hub (facilitating.py) -/

/-- The registered agent roles, i.e. the keys of `self.dependencies`
set up in `MultiAgentHandler.on_start` (facilitating.py lines 13-21). -/
inductive Role
  | gui
  | prediction
  | demandresponse
  | negotiation
  | behavioralsegmentation
  | grid
  | house
deriving DecidableEq, Repr

/-- The static dependency graph of `MultiAgentHandler.on_start`
(facilitating.py lines 13-21). -/
def dependencies : Role → List Role
  | .gui => [.house, .negotiation, .behavioralsegmentation]
  | .prediction => [.house]
  | .demandresponse => [.grid, .house]
  | .negotiation => [.house, .prediction, .demandresponse, .gui]
  | .behavioralsegmentation => [.house, .demandresponse]
  | .grid => []
  | .house => []

/-- A stored message body: either the successfully JSON-parsed body or the
raw body string kept after a `json.JSONDecodeError`
(facilitating.py lines 62-67).  Both constructors carry the original body
text, so "verbatim" propagation is the statement that the very same
`StoredMsg` value reappears downstream. -/
inductive StoredMsg
  | parsed (body : String)
  | raw (body : String)
deriving DecidableEq, Repr

/-- One entry of `self.last_message`: the latest stored message for a role
(`None` before the first receipt) and its receipt time
(facilitating.py line 22 and lines 59-73). -/
structure StatusRecord where
  msg : Option StoredMsg
  time : ℚ
deriving DecidableEq, Repr

/-- The `self.last_message` cache, total over the registered roles because
`on_start` pre-populates every key (facilitating.py line 22). -/
abbrev Cache := Role → StatusRecord

/-- The cache right after `on_start`: every registered role is mapped to
`{"time": datetime.now(), "msg": None}` (facilitating.py line 22),
with `t0` the startup instant. -/
def initialCache (t0 : ℚ) : Cache := fun _ => { msg := none, time := t0 }

/-- What gets stored for a received body: the parsed value on success, the
raw string on a decode error (facilitating.py lines 62-67).  Whether
`json.loads` succeeds is passed as the flag `parseOk`. -/
def storeMessage (body : String) (parseOk : Bool) : StoredMsg :=
  if parseOk then .parsed body else .raw body

/-- Message ingestion for a registered role: overwrite that role's record
with the stored message and the receipt time; the `finally` block updates
the timestamp in every case (facilitating.py lines 59-73). -/
def ingest (c : Cache) (r : Role) (body : String) (parseOk : Bool) (now : ℚ) : Cache :=
  fun s => if s = r then { msg := some (storeMessage body parseOk), time := now } else c s

/-- `max_dependency_age` (facilitating.py line 94). -/
def max_dependency_age : ℚ := 30

/-- `time_from_now` (facilitating.py lines 28-31): the age of a record at
instant `now`.  The `datetime.min` special case of the source is
unreachable because every record is created with a real timestamp. -/
def time_from_now (now : ℚ) (rec : StatusRecord) : ℚ := now - rec.time

/-- The body of the per-dependency loop (facilitating.py lines 97-108):
a dependency with no stored message, or one older than
`max_dependency_age`, clears `can_resolve`; a fresh one is appended to
`dict_to_send`. -/
def depStep (c : Cache) (now : ℚ) (acc : Bool × List (Role × StoredMsg)) (d : Role) :
    Bool × List (Role × StoredMsg) :=
  match (c d).msg with
  | none => (false, acc.2)
  | some m =>
      if max_dependency_age < time_from_now now (c d) then (false, acc.2)
      else (acc.1, acc.2 ++ [(d, m)])

/-- One consumer's share of a dependency-resolution tick
(facilitating.py lines 85-116): a target with no dependencies is skipped;
otherwise the loop computes `can_resolve` and `dict_to_send`, and the
aggregated bundle is dispatched exactly when `can_resolve` survived. -/
def evaluateTarget (c : Cache) (now : ℚ) (target : Role) :
    Option (List (Role × StoredMsg)) :=
  if dependencies target = [] then none
  else if ((dependencies target).foldl (depStep c now) (true, [])).1 then
    some ((dependencies target).foldl (depStep c now) (true, [])).2
  else none

/-- An ingestion event applied to the cache: the sending role, the body,
whether the body parses as JSON, and the receipt instant. -/
structure IngestEvent where
  role : Role
  body : String
  parseOk : Bool
  time : ℚ
deriving DecidableEq, Repr

/-- Sequential application of a list of ingestion events, as the cyclic
`run` loop does one receipt per cycle (facilitating.py lines 34-75). -/
def applyIngests (c : Cache) : List IngestEvent → Cache
  | [] => c
  | ev :: rest => applyIngests (ingest c ev.role ev.body ev.parseOk ev.time) rest

/-- Freshness of one dependency, the complement of the condition that
clears `can_resolve` (facilitating.py line 104). -/
def depFresh (c : Cache) (now : ℚ) (d : Role) : Bool :=
  match (c d).msg with
  | none => false
  | some _ => if max_dependency_age < time_from_now now (c d) then false else true

/-! ## Auction Coordinator (negotiation.py) -/

/-- `ZERO_ADDRESS` (negotiation.py line 18). -/
def ZERO_ADDRESS : String := "0x0000000000000000000000000000000000000000"

/-- The Coordinator-local mutable state: the cumulative account of
`NegotiationAgent.__init__` (negotiation.py lines 91-92) and the local bid
amount in wei of `TradingBehaviour.on_start` (negotiation.py line 144). -/
structure AgentState where
  total_energy_bought : ℚ
  total_energy_sold : ℚ
  bid_amount : ℕ
deriving DecidableEq, Repr

/-- One row handed to `log_blockchain_event` (negotiation.py lines 22-34):
the audit-relevant columns. -/
structure LogEntry where
  event_type : String
  energy_kwh : Option ℚ
  price_eth : Option ℚ
  balance_eth : Option ℚ
  counterparty : Option String
  status : String
deriving DecidableEq, Repr

/-- The row inserted by `log_current_balance` (negotiation.py lines
154-167) when the balance read succeeds. -/
def balanceUpdateEntry (suffix : String) (balance : ℚ) : LogEntry :=
  { event_type := "Balance " ++ suffix, energy_kwh := none, price_eth := none,
    balance_eth := some balance, counterparty := none, status := "Success" }

/-- The row written by the internal fallback of `log_current_balance`
(negotiation.py lines 163-167) when the balance read itself raises:
balance `None`, status Failed. -/
def balanceFailEntry (suffix : String) : LogEntry :=
  { event_type := "Balance " ++ suffix, energy_kwh := none, price_eth := none,
    balance_eth := none, counterparty := none, status := "Failed" }

/-- `log_current_balance` (negotiation.py lines 154-167): fully guarded,
so it never raises; it writes a Success row carrying the balance when the
read succeeds and a Failed row with no balance when the read raises. -/
def log_current_balance (suffix : String) (balanceRead : Option ℚ) : LogEntry :=
  match balanceRead with
  | some bal => balanceUpdateEntry suffix bal
  | none => balanceFailEntry suffix

/-- `web3.from_wei(x, "ether")` on a wei amount (used throughout
negotiation.py): division by 10^18, exact over the rationals. -/
def from_wei (w : ℕ) : ℚ := (w : ℚ) / 1000000000000000000

/-- Python's builtin one-argument `round` (used as `int(round(x))` in
negotiation.py line 194): round half to even. -/
def pythonRound (q : ℚ) : ℤ :=
  if q - ⌊q⌋ < 1 / 2 then ⌊q⌋
  else if 1 / 2 < q - ⌊q⌋ then ⌊q⌋ + 1
  else if ⌊q⌋ % 2 = 0 then ⌊q⌋ else ⌊q⌋ + 1

/-- The observable result of `start_auction` (negotiation.py lines
187-206): whether and with which whole-unit amount the ledger transaction
`startAuction(contract_energy_unit)` was attempted, the value surfaced to
the caller (`some b` for a returned boolean, `none` when the except
handler itself raises and the exception escapes the operation), and the
audit rows written. -/
structure StartResult where
  submitted : Option ℤ
  retval : Option Bool
  logs : List LogEntry
deriving DecidableEq, Repr

/-- `TradingBehaviour.start_auction` (negotiation.py lines 187-206).
`now` is `time.time()`, `bidding_start` and `reveal_end` are the ledger
timestamps returned by `get_auction_timings` (itself guarded, yielding
zeros on failure), `txOk` tells whether the `startAuction` transaction
(once attempted) succeeds, and `balanceRead` is the outcome of the
`get_balance` reads made while logging.  The reject paths return false
before any further ledger call.  On the submit path, when the balance
read fails, the unguarded `get_balance` on line 200 (success case) or
line 205 (except handler) raises, so only the guarded balance rows are
written and the exception escapes (`retval = none`). -/
def start_auction (now : ℚ) (bidding_start reveal_end : ℕ)
    (energy_amount_kwh : ℚ) (balanceRead : Option ℚ) (txOk : Bool) : StartResult :=
  if bidding_start ≠ 0 ∧ now < (reveal_end : ℚ) then
    { submitted := none, retval := some false, logs := [] }
  else if pythonRound energy_amount_kwh ≤ 0 then
    { submitted := none, retval := some false, logs := [] }
  else if txOk then
    match balanceRead with
    | some bal =>
        { submitted := some (pythonRound energy_amount_kwh), retval := some true,
          logs := [log_current_balance "Post-AuctionStart" (some bal),
            { event_type := "Auction Start",
              energy_kwh := some ((pythonRound energy_amount_kwh : ℤ) : ℚ),
              price_eth := none, balance_eth := some bal, counterparty := none,
              status := "Success" }] }
    | none =>
        { submitted := some (pythonRound energy_amount_kwh), retval := none,
          logs := [log_current_balance "Post-AuctionStart" none,
            log_current_balance "Post-AuctionStartFail" none] }
  else
    match balanceRead with
    | some bal =>
        { submitted := some (pythonRound energy_amount_kwh), retval := some false,
          logs := [log_current_balance "Post-AuctionStartFail" (some bal),
            { event_type := "Auction Start", energy_kwh := some energy_amount_kwh,
              price_eth := none, balance_eth := some bal, counterparty := none,
              status := "Failed" }] }
    | none =>
        { submitted := some (pythonRound energy_amount_kwh), retval := none,
          logs := [log_current_balance "Post-AuctionStartFail" none] }

/-- The observable result of `bid` and of `reveal`: the post-call agent
state, the audit rows written, and whether an exception escaped the
operation (these two operations return no value in the source). -/
structure BidResult where
  state : AgentState
  logs : List LogEntry
  raised : Bool
deriving DecidableEq, Repr

/-- `TradingBehaviour.bid` (negotiation.py lines 208-221): stores the bid
amount first (`set_bid_amount`, before the try block), then attempts the
sealed-bid transaction.  When the balance read fails, the unguarded
`get_balance` on line 217 (success case) or line 221 (except handler)
raises, so the stored bid amount survives, only the guarded balance rows
are written, and the exception escapes the operation. -/
def bid (price_wei : ℕ) (balanceRead : Option ℚ) (st : AgentState)
    (txOk : Bool) : BidResult :=
  if txOk then
    match balanceRead with
    | some bal =>
        { state := { st with bid_amount := price_wei },
          logs := [log_current_balance "Post-Bid" (some bal),
            { event_type := "Bid", energy_kwh := none,
              price_eth := some (from_wei price_wei), balance_eth := some bal,
              counterparty := none, status := "Success" }],
          raised := false }
    | none =>
        { state := { st with bid_amount := price_wei },
          logs := [log_current_balance "Post-Bid" none,
            log_current_balance "Post-BidFail" none],
          raised := true }
  else
    match balanceRead with
    | some bal =>
        { state := { st with bid_amount := price_wei },
          logs := [log_current_balance "Post-BidFail" (some bal),
            { event_type := "Bid", energy_kwh := none,
              price_eth := some (from_wei price_wei), balance_eth := some bal,
              counterparty := none, status := "Failed" }],
          raised := false }
    | none =>
        { state := { st with bid_amount := price_wei },
          logs := [log_current_balance "Post-BidFail" none],
          raised := true }

/-- `TradingBehaviour.reveal` (negotiation.py lines 223-240): a no-op when
no positive bid amount is stored; otherwise attempts the reveal
transaction.  The stored bid amount is not cleared (the reset on line 236
is commented out in the source).  When the balance read fails, the
unguarded `get_balance` on line 234 (success case) or line 240 (except
handler) raises and the exception escapes the operation. -/
def reveal (balanceRead : Option ℚ) (st : AgentState) (txOk : Bool) :
    BidResult :=
  if st.bid_amount ≤ 0 then { state := st, logs := [], raised := false }
  else if txOk then
    match balanceRead with
    | some bal =>
        { state := st,
          logs := [log_current_balance "Post-Reveal" (some bal),
            { event_type := "Reveal", energy_kwh := none,
              price_eth := some (from_wei st.bid_amount), balance_eth := some bal,
              counterparty := none, status := "Success" }],
          raised := false }
    | none =>
        { state := st,
          logs := [log_current_balance "Post-Reveal" none,
            log_current_balance "Post-RevealFail" none],
          raised := true }
  else
    match balanceRead with
    | some bal =>
        { state := st,
          logs := [log_current_balance "Post-RevealFail" (some bal),
            { event_type := "Reveal", energy_kwh := none,
              price_eth := some (from_wei st.bid_amount), balance_eth := some bal,
              counterparty := none, status := "Failed" }],
          raised := false }
    | none =>
        { state := st,
          logs := [log_current_balance "Post-RevealFail" none],
          raised := true }

/-- The read-backs available after a successful `closeAuction` transaction
(negotiation.py lines 250-254): `highestBidder()`, `secondHighestBid()`,
`energyAmount()` and `seller()`.  The wei price and the whole-unit energy
amount are ledger-resident unsigned integers. -/
structure CloseInfo where
  winner : String
  secondHighestBid : ℕ
  energyAmount : ℕ
  seller : String
deriving DecidableEq, Repr

/-- The four possible outcome classifications of a successful close
(negotiation.py lines 261-279). -/
inductive Outcome
  | buy
  | sell
  | lost
  | noWinner
deriving DecidableEq, Repr

/-- The outcome classification chain of `closeAuction`
(negotiation.py lines 265-279): `winner == self.account` is tested first,
then `winner != ZERO_ADDRESS` with the seller comparison, and the
remaining case keeps the initial "no winner" event type. -/
def classifyOutcome (account winner seller : String) : Outcome :=
  if winner = account then .buy
  else if winner ≠ ZERO_ADDRESS then
    if account = seller then .sell else .lost
  else .noWinner

/-- The observable result of `closeAuction`: the post-call agent state and
the audit rows written. -/
structure CloseResult where
  state : AgentState
  logs : List LogEntry
deriving DecidableEq, Repr

/-- `TradingBehaviour.closeAuction` (negotiation.py lines 242-297).
`txResult` is `some info` when the close transaction and its read-backs
succeed and `none` when any of them raises; the success path classifies
the outcome and mutates the cumulative account (lines 261-279), and both
exits reset `self.bid_amount` to 0 (lines 288 and 297). -/
def closeAuction (account : String) (balance : ℚ) (st : AgentState)
    (txResult : Option CloseInfo) : CloseResult :=
  match txResult with
  | some info =>
      let energy_kwh : ℚ := (info.energyAmount : ℚ)
      let final_price_eth : ℚ := from_wei info.secondHighestBid
      let balanceEntry := balanceUpdateEntry "Post-Close" balance
      if info.winner = account then
        { state := { st with
            total_energy_bought := st.total_energy_bought + energy_kwh,
            bid_amount := 0 },
          logs := [balanceEntry,
            { event_type := "Auction Buy", energy_kwh := some energy_kwh,
              price_eth := some final_price_eth, balance_eth := some balance,
              counterparty := some info.seller, status := "Success" }] }
      else if info.winner ≠ ZERO_ADDRESS then
        if account = info.seller then
          { state := { st with
              total_energy_sold := st.total_energy_sold + energy_kwh,
              bid_amount := 0 },
            logs := [balanceEntry,
              { event_type := "Auction Sell", energy_kwh := some energy_kwh,
                price_eth := some final_price_eth, balance_eth := some balance,
                counterparty := some info.winner, status := "Success" }] }
        else
          { state := { st with bid_amount := 0 },
            logs := [balanceEntry,
              { event_type := "Auction End (Lost)", energy_kwh := some energy_kwh,
                price_eth := some final_price_eth, balance_eth := some balance,
                counterparty := some info.winner, status := "Success" }] }
      else
        { state := { st with bid_amount := 0 },
          logs := [balanceEntry,
            { event_type := "Auction End (No Winner)", energy_kwh := some energy_kwh,
              price_eth := none, balance_eth := some balance,
              counterparty := none, status := "Success" }] }
  | none =>
      { state := { st with bid_amount := 0 },
        logs := [balanceUpdateEntry "Post-CloseFail" balance,
          { event_type := "Auction End", energy_kwh := none, price_eth := none,
            balance_eth := some balance, counterparty := none, status := "Failed" }] }

/-- `TradingBehaviour.current_auction_state` (negotiation.py lines
299-309): the phase derived from `time.time()` and the three
ledger-resident timestamps, encoded as in the source comment:
No Auction = -1, Pre-Bidding = 0, Bidding = 1, Reveal = 2,
Post-Reveal/Closing = 3. -/
def current_auction_state (current_time : ℚ)
    (bidding_start bidding_end reveal_end : ℕ) : ℤ :=
  if bidding_start = 0 then -1
  else if current_time < (bidding_start : ℚ) then 0
  else if current_time < (bidding_end : ℚ) then 1
  else if current_time ≤ (reveal_end : ℚ) then 2
  else 3

/-- One mutating operation of the Coordinator with its ledger
interaction outcome baked in, for stating invariants across all
operations. -/
inductive CoordinatorOp
  | startOp (now : ℚ) (bidding_start reveal_end : ℕ) (energy : ℚ)
      (balanceRead : Option ℚ) (txOk : Bool)
  | bidOp (price_wei : ℕ) (balanceRead : Option ℚ) (txOk : Bool)
  | revealOp (balanceRead : Option ℚ) (txOk : Bool)
  | closeOp (txResult : Option CloseInfo)

/-- The agent state after one operation.  `start_auction` neither reads
nor writes any `AgentState` field in the source (negotiation.py lines
187-206), so it leaves the state unchanged. -/
def applyOp (account : String) (balance : ℚ) (st : AgentState) :
    CoordinatorOp → AgentState
  | .startOp _ _ _ _ _ _ => st
  | .bidOp p br txOk => (bid p br st txOk).state
  | .revealOp br txOk => (reveal br st txOk).state
  | .closeOp txResult => (closeAuction account balance st txResult).state

/-- True when some audit row carries `status="Failed"`. -/
def hasFailedEntry (logs : List LogEntry) : Bool :=
  logs.any fun le => le.status == "Failed"

/-- True when some audit row carries a balance snapshot. -/
def hasBalanceSnapshot (logs : List LogEntry) : Bool :=
  logs.any fun le => le.balance_eth.isSome

/-! ## Example inputs used by witnesses -/

/-- A cache in which every role has a fresh parsed message. -/
def cacheAllFresh : Cache :=
  fun _ => { msg := some (StoredMsg.parsed "x"), time := 0 }

/-! ## Helper lemmas about the dependency-resolution fold -/

theorem foldFlag (c : Cache) (now : ℚ) :
    ∀ (l : List Role) (b : Bool) (acc : List (Role × StoredMsg)),
      (l.foldl (depStep c now) (b, acc)).1 = (b && l.all (depFresh c now)) := by
  intro l
  induction l with
  | nil => intro b acc; simp
  | cons d l ih =>
      intro b acc
      simp only [List.foldl_cons, List.all_cons]
      rcases hmsg : (c d).msg with _ | m
      · rw [show depStep c now (b, acc) d = (false, acc) by simp [depStep, hmsg]]
        rw [ih]
        simp [depFresh, hmsg]
      · by_cases hage : max_dependency_age < time_from_now now (c d)
        · rw [show depStep c now (b, acc) d = (false, acc) by
            simp [depStep, hmsg, hage]]
          rw [ih]
          simp [depFresh, hmsg, hage]
        · rw [show depStep c now (b, acc) d = (b, acc ++ [(d, m)]) by
            simp [depStep, hmsg, hage]]
          rw [ih]
          simp [depFresh, hmsg, hage]

theorem foldDict (c : Cache) (now : ℚ) :
    ∀ (l : List Role) (b : Bool) (acc : List (Role × StoredMsg)),
      (l.foldl (depStep c now) (b, acc)).1 = true →
      (l.foldl (depStep c now) (b, acc)).2
        = acc ++ l.filterMap (fun d => ((c d).msg).map (fun m => (d, m))) := by
  intro l
  induction l with
  | nil => intro b acc _; simp
  | cons d l ih =>
      intro b acc hflag
      have hfl : (b && (d :: l).all (depFresh c now)) = true := by
        rw [← foldFlag c now (d :: l) b acc]; exact hflag
      have hfresh : depFresh c now d = true := by
        simp only [List.all_cons, Bool.and_eq_true] at hfl
        exact hfl.2.1
      rcases hmsg : (c d).msg with _ | m
      · simp [depFresh, hmsg] at hfresh
      · by_cases hage : max_dependency_age < time_from_now now (c d)
        · simp [depFresh, hmsg, hage] at hfresh
        · have hstep : depStep c now (b, acc) d = (b, acc ++ [(d, m)]) := by
            simp [depStep, hmsg, hage]
          simp only [List.foldl_cons, hstep] at hflag ⊢
          rw [ih b (acc ++ [(d, m)]) hflag]
          simp [hmsg]

theorem depFresh_iff (c : Cache) (now : ℚ) (d : Role) :
    depFresh c now d = true ↔
      ((c d).msg).isSome = true ∧ time_from_now now (c d) ≤ max_dependency_age := by
  rcases hmsg : (c d).msg with _ | m
  · simp [depFresh, hmsg]
  · by_cases hage : max_dependency_age < time_from_now now (c d)
    · simp [depFresh, hmsg, hage, not_le.mpr hage]
    · simp [depFresh, hmsg, hage, not_lt.mp hage]

theorem evaluateTarget_isSome_iff (c : Cache) (now : ℚ) (target : Role)
    (hne : dependencies target ≠ []) :
    (evaluateTarget c now target).isSome = true ↔
      ∀ d ∈ dependencies target,
        ((c d).msg).isSome = true ∧ time_from_now now (c d) ≤ max_dependency_age := by
  unfold evaluateTarget
  rw [if_neg hne]
  rw [show ((dependencies target).foldl (depStep c now) (true, [])).1
        = (dependencies target).all (depFresh c now) by
    rw [foldFlag c now (dependencies target) true []]; simp]
  by_cases hall : (dependencies target).all (depFresh c now) = true
  · simp only [hall, if_pos, Option.isSome_some, true_iff]
    intro d hd
    exact (depFresh_iff c now d).mp (List.all_eq_true.mp hall d hd)
  · simp only [Bool.not_eq_true] at hall
    have hgoal : ¬((dependencies target).all (depFresh c now) = true) := by
      simp [hall]
    rw [if_neg hgoal]
    simp only [Option.isSome_none, Bool.false_eq_true, false_iff]
    intro hcontra
    exact hgoal (List.all_eq_true.mpr fun d hd =>
      (depFresh_iff c now d).mpr (hcontra d hd))

theorem evaluateTarget_none_of_unfresh (c : Cache) (now : ℚ) (target d : Role)
    (hd : d ∈ dependencies target) (h : depFresh c now d = false) :
    evaluateTarget c now target = none := by
  have hne : dependencies target ≠ [] := by
    intro hnil; rw [hnil] at hd; exact absurd hd (List.not_mem_nil d)
  unfold evaluateTarget
  rw [if_neg hne]
  rw [show ((dependencies target).foldl (depStep c now) (true, [])).1
        = (dependencies target).all (depFresh c now) by
    rw [foldFlag c now (dependencies target) true []]; simp]
  have : (dependencies target).all (depFresh c now) = false := by
    rw [List.all_eq_false]
    exact ⟨d, hd, by simp [h]⟩
  simp [this]

theorem evaluateTarget_eq_some (c : Cache) (now : ℚ) (target : Role)
    (dict : List (Role × StoredMsg))
    (h : evaluateTarget c now target = some dict) :
    dict = (dependencies target).filterMap
      (fun d => ((c d).msg).map (fun m => (d, m))) := by
  unfold evaluateTarget at h
  by_cases hne : dependencies target = []
  · rw [if_pos hne] at h; exact absurd h (by simp)
  · rw [if_neg hne] at h
    by_cases hflag : ((dependencies target).foldl (depStep c now) (true, [])).1 = true
    · simp only [hflag, if_pos, Option.some_inj] at h
      rw [← h]
      exact (by simpa using foldDict c now (dependencies target) true [] hflag)
    · simp only [Bool.not_eq_true] at hflag
      simp [hflag] at h

theorem applyIngests_untouched (events : List IngestEvent) :
    ∀ (c : Cache) (d : Role), d ∉ events.map IngestEvent.role →
      applyIngests c events d = c d := by
  induction events with
  | nil => intro c d _; rfl
  | cons ev rest ih =>
      intro c d hd
      simp only [List.map_cons, List.mem_cons, not_or] at hd
      rw [show applyIngests c (ev :: rest) = applyIngests
        (ingest c ev.role ev.body ev.parseOk ev.time) rest from rfl]
      rw [ih _ d hd.2]
      simp [ingest, hd.1]

/-! ## Claim theorems: Dependency-Resolution Hub -/

/-- C3: for every consumer role with a non-empty dependency set and every
evaluation tick, a Bundle is dispatched to that consumer if and only if
every required producer's StatusRecord exists (a message has been stored
for it) and its age is at most the 30-second freshness threshold; in
particular, if any single dependency is absent or older than the
threshold, nothing is dispatched for that consumer that tick. -/
theorem C3_all_or_nothing_dispatch (c : Cache) (now : ℚ) (target : Role)
    (hne : dependencies target ≠ []) :
    (evaluateTarget c now target).isSome = true ↔
      ∀ d ∈ dependencies target,
        ((c d).msg).isSome = true ∧ time_from_now now (c d) ≤ max_dependency_age :=
  evaluateTarget_isSome_iff c now target hne

/-- Witness for C3 at a concrete cache and consumer: with every dependency
fresh, the bundle for `prediction` is dispatched. -/
theorem C3_all_or_nothing_dispatch_witness :
    dependencies Role.prediction ≠ [] ∧
    (evaluateTarget cacheAllFresh 10 Role.prediction).isSome = true :=
  ⟨by decide,
    (C3_all_or_nothing_dispatch cacheAllFresh 10 Role.prediction (by decide)).mpr
      (by simp [dependencies, cacheAllFresh, time_from_now, max_dependency_age]
          norm_num)⟩

/-- C6: ingesting a message from a registered role unconditionally
overwrites that role's StatusRecord with the stored payload and the
receipt time (and no other record), a body that fails to parse is still
stored as the raw string, and the most recent ingested payload appears
verbatim (and uniquely) at that role in every dependent bundle that is
subsequently dispatched. -/
theorem C6_ingest_last_write_wins (c : Cache) (r s : Role) (body : String)
    (parseOk : Bool) (now later : ℚ) (target : Role)
    (dict : List (Role × StoredMsg)) (m : StoredMsg)
    (hs : s ≠ r)
    (hdict : evaluateTarget (ingest c r body parseOk now) later target = some dict)
    (hdep : r ∈ dependencies target)
    (hm : (r, m) ∈ dict) :
    ingest c r body parseOk now r
        = { msg := some (storeMessage body parseOk), time := now } ∧
    ingest c r body parseOk now s = c s ∧
    storeMessage body false = StoredMsg.raw body ∧
    (r, storeMessage body parseOk) ∈ dict ∧
    m = storeMessage body parseOk := by
  have hc' : ingest c r body parseOk now r
      = { msg := some (storeMessage body parseOk), time := now } := by
    simp [ingest]
  have hdicteq := evaluateTarget_eq_some _ later target dict hdict
  refine ⟨hc', by simp [ingest, hs], rfl, ?_, ?_⟩
  · rw [hdicteq]
    exact List.mem_filterMap.mpr ⟨r, hdep, by rw [hc']; rfl⟩
  · rw [hdicteq] at hm
    rcases List.mem_filterMap.mp hm with ⟨a, _, ha⟩
    rcases Option.map_eq_some'.mp ha with ⟨m', hm', heq⟩
    have har : a = r := congrArg Prod.fst heq
    rw [har, hc'] at hm'
    have : m' = storeMessage body parseOk := by
      simpa using hm'.symm
    rw [← this]
    exact (congrArg Prod.snd heq).symm

/-- Witness for C6: ingest a parsed body for `house` at time 5, evaluate
at time 10; the bundle dispatched to `prediction` holds exactly that
payload, and the `gui` record is untouched. -/
theorem C6_ingest_last_write_wins_witness :
    ingest cacheAllFresh Role.house "b" true 5 Role.house
        = { msg := some (storeMessage "b" true), time := 5 } ∧
    ingest cacheAllFresh Role.house "b" true 5 Role.gui = cacheAllFresh Role.gui ∧
    storeMessage "b" false = StoredMsg.raw "b" ∧
    (Role.house, storeMessage "b" true)
        ∈ [(Role.house, StoredMsg.parsed "b")] ∧
    StoredMsg.parsed "b" = storeMessage "b" true :=
  C6_ingest_last_write_wins cacheAllFresh Role.house Role.gui "b" true 5 10
    Role.prediction [(Role.house, StoredMsg.parsed "b")] (StoredMsg.parsed "b")
    (by decide)
    (by simp [evaluateTarget, dependencies, ingest, cacheAllFresh, depStep,
          storeMessage, time_from_now, max_dependency_age]
        norm_num)
    (by decide) (by decide)

/-- C10: the Hub pre-creates a record for every registered role at startup
with message `None`; a dependency whose stored message is `None` is
treated as unresolved regardless of how fresh its timestamp is; and
therefore no bundle is dispatched to a consumer until every one of its
dependencies has delivered at least one message since the Hub started. -/
theorem C10_no_dispatch_before_first_message (t0 : ℚ) (events : List IngestEvent)
    (now : ℚ) (target d : Role) (c : Cache)
    (hd : d ∈ dependencies target)
    (hnever : d ∉ events.map IngestEvent.role)
    (hcnone : (c d).msg = none) :
    (initialCache t0 d).msg = none ∧
    (applyIngests (initialCache t0) events d).msg = none ∧
    evaluateTarget c now target = none ∧
    evaluateTarget (applyIngests (initialCache t0) events) now target = none := by
  have hinit : (initialCache t0 d).msg = none := rfl
  have happ : (applyIngests (initialCache t0) events d).msg = none := by
    rw [applyIngests_untouched events (initialCache t0) d hnever]
    rfl
  refine ⟨hinit, happ, ?_, ?_⟩
  · exact evaluateTarget_none_of_unfresh c now target d hd (by simp [depFresh, hcnone])
  · exact evaluateTarget_none_of_unfresh _ now target d hd (by simp [depFresh, happ])

/-- Witness for C10: a single ingest from `negotiation` leaves the `house`
record empty, so `prediction` (which depends on `house`) receives nothing
even long after startup. -/
theorem C10_no_dispatch_before_first_message_witness :
    (initialCache 0 Role.house).msg = none ∧
    (applyIngests (initialCache 0) [⟨Role.negotiation, "n", true, 1⟩]
        Role.house).msg = none ∧
    evaluateTarget (initialCache 0) 50 Role.prediction = none ∧
    evaluateTarget (applyIngests (initialCache 0)
        [⟨Role.negotiation, "n", true, 1⟩]) 50 Role.prediction = none :=
  C10_no_dispatch_before_first_message 0 [⟨Role.negotiation, "n", true, 1⟩]
    50 Role.prediction Role.house (initialCache 0)
    (by decide) (by decide) (by decide)

/-! ## Claim theorems: Auction Coordinator -/

/-- C4: the phase function returns NONE (-1) when `start == 0`,
PRE_BIDDING (0) when `start != 0` and `now < start`, BIDDING (1) when
additionally `start <= now < end`, REVEAL (2) when additionally
`end <= now <= reveal_end` (inclusive upper bound), and CLOSEABLE (3)
when additionally `now > reveal_end`, reading the cascade of the source's
elif chain; it is a pure, deterministic function of its four inputs, and
on the auction `start=t0+5, end=t0+65, reveal_end=t0+125` it yields
PRE_BIDDING at t0+3, BIDDING at t0+40, REVEAL at t0+100 and CLOSEABLE at
t0+130. -/
theorem C4_phase_function (now : ℚ) (s e r : ℕ) (t0 : ℕ) :
    (s = 0 → current_auction_state now s e r = -1) ∧
    (s ≠ 0 → now < (s : ℚ) → current_auction_state now s e r = 0) ∧
    (s ≠ 0 → (s : ℚ) ≤ now → now < (e : ℚ) →
      current_auction_state now s e r = 1) ∧
    (s ≠ 0 → (s : ℚ) ≤ now → (e : ℚ) ≤ now → now ≤ (r : ℚ) →
      current_auction_state now s e r = 2) ∧
    (s ≠ 0 → (s : ℚ) ≤ now → (e : ℚ) ≤ now → (r : ℚ) < now →
      current_auction_state now s e r = 3) ∧
    current_auction_state now s e r = current_auction_state now s e r ∧
    current_auction_state ((t0 : ℚ) + 3) (t0 + 5) (t0 + 65) (t0 + 125) = 0 ∧
    current_auction_state ((t0 : ℚ) + 40) (t0 + 5) (t0 + 65) (t0 + 125) = 1 ∧
    current_auction_state ((t0 : ℚ) + 100) (t0 + 5) (t0 + 65) (t0 + 125) = 2 ∧
    current_auction_state ((t0 : ℚ) + 130) (t0 + 5) (t0 + 65) (t0 + 125) = 3 := by
  have h5 : t0 + 5 ≠ 0 := by omega
  refine ⟨?_, ?_, ?_, ?_, ?_, rfl, ?_, ?_, ?_, ?_⟩
  · intro h
    simp [current_auction_state, h]
  · intro h1 h2
    unfold current_auction_state
    rw [if_neg h1, if_pos h2]
  · intro h1 h2 h3
    unfold current_auction_state
    rw [if_neg h1, if_neg (not_lt.mpr h2), if_pos h3]
  · intro h1 h2 h3 h4
    unfold current_auction_state
    rw [if_neg h1, if_neg (not_lt.mpr h2), if_neg (not_lt.mpr h3), if_pos h4]
  · intro h1 h2 h3 h4
    unfold current_auction_state
    rw [if_neg h1, if_neg (not_lt.mpr h2), if_neg (not_lt.mpr h3),
      if_neg (not_le.mpr h4)]
  · unfold current_auction_state
    rw [if_neg h5, if_pos (by push_cast; linarith)]
  · unfold current_auction_state
    rw [if_neg h5, if_neg (not_lt.mpr (by push_cast; linarith)),
      if_pos (by push_cast; linarith)]
  · unfold current_auction_state
    rw [if_neg h5, if_neg (not_lt.mpr (by push_cast; linarith)),
      if_neg (not_lt.mpr (by push_cast; linarith)),
      if_pos (by push_cast; linarith)]
  · unfold current_auction_state
    rw [if_neg h5, if_neg (not_lt.mpr (by push_cast; linarith)),
      if_neg (not_lt.mpr (by push_cast; linarith)),
      if_neg (not_le.mpr (by push_cast; linarith))]

/-- Witness for C4 at a concrete input: with start=5, end=8, reveal_end=10,
the phase at now=7 is BIDDING. -/
theorem C4_phase_function_witness : current_auction_state 7 5 8 10 = 1 :=
  (C4_phase_function 7 5 8 10 0).2.2.1 (by decide) (by norm_num) (by norm_num)

/-- C2 counterexample: at `now = 20` with ledger timestamps
`start = 5, end = 8, reveal_end = 10` the derived phase is CLOSEABLE
(hence not NONE), yet `start_auction` with amount 3 does submit the
ledger transaction and returns true, because the source guard only
rejects while `now < reveal_end`.  This falsifies the claim that any
phase other than NONE makes `start_auction` return false with no ledger
call. -/
theorem C2_counterexample :
    current_auction_state 20 5 8 10 = 3 ∧
    (start_auction 20 5 10 3 (some 100) true).submitted = some 3 ∧
    (start_auction 20 5 10 3 (some 100) true).retval = some true := by
  refine ⟨by norm_num [current_auction_state], ?_, ?_⟩ <;>
    norm_num [start_auction, pythonRound]

/-- C2 (amended): `start_auction` returns false and performs no ledger
call exactly when the ledger shows an unfinished auction
(`bidding_start != 0` and `now < reveal_end`, i.e. any phase before the
end of the reveal period) or when the amount rounded half-to-even to a
whole unit is `<= 0`; otherwise it attempts the ledger transaction with
the rounded amount and, whenever the balance reads used for logging
succeed, returns the transaction's success. -/
theorem C2_start_auction_guard (now : ℚ) (bs re : ℕ) (e : ℚ)
    (balanceRead : Option ℚ) (txOk : Bool) :
    ((bs ≠ 0 ∧ now < (re : ℚ)) ∨ pythonRound e ≤ 0 →
      (start_auction now bs re e balanceRead txOk).retval = some false ∧
      (start_auction now bs re e balanceRead txOk).submitted = none) ∧
    (¬(bs ≠ 0 ∧ now < (re : ℚ)) → 0 < pythonRound e →
      (start_auction now bs re e balanceRead txOk).submitted
          = some (pythonRound e) ∧
      (start_auction now bs re e balanceRead txOk).retval
          = balanceRead.map (fun _ => txOk)) := by
  constructor
  · rintro (hguard | hround)
    · unfold start_auction
      rw [if_pos hguard]
      exact ⟨rfl, rfl⟩
    · unfold start_auction
      by_cases hg : bs ≠ 0 ∧ now < (re : ℚ)
      · rw [if_pos hg]
        exact ⟨rfl, rfl⟩
      · rw [if_neg hg, if_pos hround]
        exact ⟨rfl, rfl⟩
  · intro hg hround
    unfold start_auction
    rw [if_neg hg, if_neg (not_le.mpr hround)]
    cases txOk <;> rcases balanceRead with _ | bal <;> simp

/-- Witness for C2 (amended): with no auction on the ledger, amount 3 and
a succeeding balance read, the rounded amount is submitted and the call
reports success. -/
theorem C2_start_auction_guard_witness :
    (start_auction 1 0 0 3 (some 0) true).submitted = some (pythonRound 3) ∧
    (start_auction 1 0 0 3 (some 0) true).retval
        = (some (0 : ℚ)).map (fun _ => true) :=
  (C2_start_auction_guard 1 0 0 3 (some 0) true).2 (by simp)
    (by norm_num [pythonRound])

/-- C1 counterexample: with self = "0xA", winner = zero address and
seller = "0xB" we have winner != self and seller != self, yet the code
classifies the outcome as NoWinner, not Lost, so the claim's third
condition (`winner != self && seller != self` yields Lost) is false as
stated. -/
theorem C1_counterexample :
    ZERO_ADDRESS ≠ "0xA" ∧ "0xB" ≠ "0xA" ∧
    classifyOutcome "0xA" ZERO_ADDRESS "0xB" = Outcome.noWinner ∧
    Outcome.noWinner ≠ Outcome.lost := by
  refine ⟨by decide, by decide, by decide, by decide⟩

/-- C1 (amended): for every successful closeAuction by an account other
than the zero address, the outcome classification is exhaustive over
{Buy, Sell, Lost, NoWinner}, and: `winner == self && seller != self`
yields Buy with `total_energy_bought` increased by the energy amount;
`winner != self && winner != zero_address && seller == self` yields Sell
with `total_energy_sold` increased by the energy amount;
`winner != self && winner != zero_address && seller != self` yields Lost
with no account mutation; `winner == zero_address` yields NoWinner with
no account mutation and no price recorded in any audit row.  (The Lost
condition additionally requires `winner != zero_address`, which the claim
as stated omits.) -/
theorem C1_close_outcome_classification (account : String) (balance : ℚ)
    (st : AgentState) (info : CloseInfo) (h0 : account ≠ ZERO_ADDRESS) :
    (classifyOutcome account info.winner info.seller = Outcome.buy ∨
     classifyOutcome account info.winner info.seller = Outcome.sell ∨
     classifyOutcome account info.winner info.seller = Outcome.lost ∨
     classifyOutcome account info.winner info.seller = Outcome.noWinner) ∧
    (info.winner = account ∧ info.seller ≠ account →
      classifyOutcome account info.winner info.seller = Outcome.buy ∧
      (closeAuction account balance st (some info)).state.total_energy_bought
        = st.total_energy_bought + (info.energyAmount : ℚ) ∧
      (closeAuction account balance st (some info)).state.total_energy_sold
        = st.total_energy_sold) ∧
    (info.winner ≠ account ∧ info.winner ≠ ZERO_ADDRESS ∧
        info.seller = account →
      classifyOutcome account info.winner info.seller = Outcome.sell ∧
      (closeAuction account balance st (some info)).state.total_energy_sold
        = st.total_energy_sold + (info.energyAmount : ℚ) ∧
      (closeAuction account balance st (some info)).state.total_energy_bought
        = st.total_energy_bought) ∧
    (info.winner ≠ account ∧ info.winner ≠ ZERO_ADDRESS ∧
        info.seller ≠ account →
      classifyOutcome account info.winner info.seller = Outcome.lost ∧
      (closeAuction account balance st (some info)).state.total_energy_bought
        = st.total_energy_bought ∧
      (closeAuction account balance st (some info)).state.total_energy_sold
        = st.total_energy_sold) ∧
    (info.winner = ZERO_ADDRESS →
      classifyOutcome account info.winner info.seller = Outcome.noWinner ∧
      (closeAuction account balance st (some info)).state.total_energy_bought
        = st.total_energy_bought ∧
      (closeAuction account balance st (some info)).state.total_energy_sold
        = st.total_energy_sold ∧
      ∀ le ∈ (closeAuction account balance st (some info)).logs,
        le.price_eth = none) := by
  refine ⟨?_, ?_, ?_, ?_, ?_⟩
  · unfold classifyOutcome
    split_ifs <;> simp
  · rintro ⟨hw, _⟩
    refine ⟨by simp [classifyOutcome, hw], ?_, ?_⟩ <;>
      simp [closeAuction, hw]
  · rintro ⟨hw, hz, hsel⟩
    refine ⟨by simp [classifyOutcome, hw, hz, hsel], ?_, ?_⟩ <;>
      simp [closeAuction, hw, hz, hsel]
  · rintro ⟨hw, hz, hsel⟩
    have hsel' : account ≠ info.seller := fun h => hsel h.symm
    refine ⟨by simp [classifyOutcome, hw, hz, hsel'], ?_, ?_⟩ <;>
      simp [closeAuction, hw, hz, hsel']
  · intro hz
    have h0' : ¬ ZERO_ADDRESS = account := fun h => h0 h.symm
    refine ⟨by simp [classifyOutcome, hz, h0'], ?_, ?_, ?_⟩ <;>
      simp [closeAuction, hz, h0', balanceUpdateEntry]

/-- Witness for C1 (amended): a Buy close for account "0xA" with energy 2
increases `total_energy_bought` from 1 by 2 and leaves
`total_energy_sold` untouched. -/
theorem C1_close_outcome_classification_witness :
    classifyOutcome "0xA" "0xA" "0xB" = Outcome.buy ∧
    (closeAuction "0xA" 7 ⟨1, 1, 9⟩
        (some ⟨"0xA", 5, 2, "0xB"⟩)).state.total_energy_bought
      = 1 + ((2 : ℕ) : ℚ) ∧
    (closeAuction "0xA" 7 ⟨1, 1, 9⟩
        (some ⟨"0xA", 5, 2, "0xB"⟩)).state.total_energy_sold = 1 :=
  (C1_close_outcome_classification "0xA" 7 ⟨1, 1, 9⟩ ⟨"0xA", 5, 2, "0xB"⟩
    (by decide)).2.1 ⟨rfl, by decide⟩

/-- C5: every invocation of closeAuction leaves the local bid state
(`bid_amount`) reset to zero when it returns, on the success path and on
the failure path alike. -/
theorem C5_close_resets_bid_state (account : String) (balance : ℚ)
    (st : AgentState) (txResult : Option CloseInfo) :
    (closeAuction account balance st txResult).state.bid_amount = 0 := by
  rcases txResult with _ | info
  · rfl
  · unfold closeAuction
    dsimp only
    split_ifs <;> rfl

/-- C9 (implicit): whenever closeAuction succeeds with `winner == self`,
the outcome is classified Buy and `total_energy_bought` increases by the
energy amount even when `seller == self` (the self-trade case): the
`winner == self` test takes precedence over every other condition, and
`total_energy_sold` is left unchanged. -/
theorem C9_winner_self_precedence (account : String) (balance : ℚ)
    (st : AgentState) (info : CloseInfo) (hw : info.winner = account) :
    classifyOutcome account info.winner info.seller = Outcome.buy ∧
    (closeAuction account balance st (some info)).state.total_energy_bought
      = st.total_energy_bought + (info.energyAmount : ℚ) ∧
    (closeAuction account balance st (some info)).state.total_energy_sold
      = st.total_energy_sold := by
  refine ⟨by simp [classifyOutcome, hw], ?_, ?_⟩ <;> simp [closeAuction, hw]

/-- Witness for C9 at the self-trade input: winner and seller both equal
the account. -/
theorem C9_winner_self_precedence_witness :
    classifyOutcome "0xA" "0xA" "0xA" = Outcome.buy ∧
    (closeAuction "0xA" 0 ⟨0, 0, 4⟩
        (some ⟨"0xA", 5, 2, "0xA"⟩)).state.total_energy_bought
      = 0 + ((2 : ℕ) : ℚ) ∧
    (closeAuction "0xA" 0 ⟨0, 0, 4⟩
        (some ⟨"0xA", 5, 2, "0xA"⟩)).state.total_energy_sold = 0 :=
  C9_winner_self_precedence "0xA" 0 ⟨0, 0, 4⟩ ⟨"0xA", 5, 2, "0xA"⟩ rfl

/-- C7: the cumulative counters `total_energy_bought` and
`total_energy_sold` are monotonically non-decreasing across every
Coordinator operation, and they change only on a successful closeAuction:
never during start_auction, bid or reveal, and never on a failed
close. -/
theorem C7_totals_monotone (account : String) (balance : ℚ)
    (st : AgentState) (op : CoordinatorOp) :
    st.total_energy_bought ≤ (applyOp account balance st op).total_energy_bought ∧
    st.total_energy_sold ≤ (applyOp account balance st op).total_energy_sold ∧
    ((applyOp account balance st op).total_energy_bought
        ≠ st.total_energy_bought ∨
     (applyOp account balance st op).total_energy_sold
        ≠ st.total_energy_sold →
      ∃ info, op = CoordinatorOp.closeOp (some info)) := by
  rcases op with ⟨now, bs, re, e, br, txOk⟩ | ⟨p, br, txOk⟩ | ⟨br, txOk⟩ | txResult
  · exact ⟨le_refl _, le_refl _, fun h => by
      rcases h with h | h <;> exact absurd rfl h⟩
  · have hst : (bid p br st txOk).state = { st with bid_amount := p } := by
      unfold bid
      cases txOk <;> rcases br with _ | bal <;> rfl
    rw [show applyOp account balance st (CoordinatorOp.bidOp p br txOk)
        = (bid p br st txOk).state from rfl, hst]
    exact ⟨le_refl _, le_refl _, fun h => by
      rcases h with h | h <;> exact absurd rfl h⟩
  · have hst : (reveal br st txOk).state = st := by
      unfold reveal
      rcases br with _ | bal <;> split_ifs <;> rfl
    rw [show applyOp account balance st (CoordinatorOp.revealOp br txOk)
        = (reveal br st txOk).state from rfl, hst]
    exact ⟨le_refl _, le_refl _, fun h => by
      rcases h with h | h <;> exact absurd rfl h⟩
  · rcases txResult with _ | info
    · have hst : (closeAuction account balance st none).state
          = { st with bid_amount := 0 } := rfl
      rw [show applyOp account balance st (CoordinatorOp.closeOp none)
          = (closeAuction account balance st none).state from rfl, hst]
      exact ⟨le_refl _, le_refl _, fun h => by
        rcases h with h | h <;> exact absurd rfl h⟩
    · refine ⟨?_, ?_, fun _ => ⟨info, rfl⟩⟩
      · show st.total_energy_bought
            ≤ (closeAuction account balance st (some info)).state.total_energy_bought
        unfold closeAuction
        dsimp only
        split_ifs <;> simp
      · show st.total_energy_sold
            ≤ (closeAuction account balance st (some info)).state.total_energy_sold
        unfold closeAuction
        dsimp only
        split_ifs <;> simp

/-- Witness for C7 at a concrete state and operation. -/
theorem C7_totals_monotone_witness :
    (⟨0, 0, 0⟩ : AgentState).total_energy_bought
      ≤ (applyOp "0xA" 0 ⟨0, 0, 0⟩
          (CoordinatorOp.bidOp 1 (some 9) true)).total_energy_bought ∧
    (⟨0, 0, 0⟩ : AgentState).total_energy_sold
      ≤ (applyOp "0xA" 0 ⟨0, 0, 0⟩
          (CoordinatorOp.bidOp 1 (some 9) true)).total_energy_sold ∧
    ((applyOp "0xA" 0 ⟨0, 0, 0⟩
          (CoordinatorOp.bidOp 1 (some 9) true)).total_energy_bought
        ≠ (⟨0, 0, 0⟩ : AgentState).total_energy_bought ∨
     (applyOp "0xA" 0 ⟨0, 0, 0⟩
          (CoordinatorOp.bidOp 1 (some 9) true)).total_energy_sold
        ≠ (⟨0, 0, 0⟩ : AgentState).total_energy_sold →
      ∃ info, CoordinatorOp.bidOp 1 (some 9) true
          = CoordinatorOp.closeOp (some info)) :=
  C7_totals_monotone "0xA" 0 ⟨0, 0, 0⟩ (CoordinatorOp.bidOp 1 (some 9) true)

/-- C8 counterexample: with the ledger connection down, `bid`'s
transaction fails and the `get_balance` call in its except handler
(negotiation.py line 221) raises too, so the exception escapes the
operation (a raised exception is surfaced to the caller, not a boolean),
no balance snapshot is written, and no "Bid" event row is logged.  This
falsifies the claim that every ledger failure is caught inside the
operation and logged with a Failed status plus a balance snapshot. -/
theorem C8_counterexample :
    (bid 2 none ⟨0, 0, 3⟩ false).raised = true ∧
    hasBalanceSnapshot (bid 2 none ⟨0, 0, 3⟩ false).logs = false ∧
    (bid 2 none ⟨0, 0, 3⟩ false).logs.any
        (fun le => le.event_type == "Bid") = false := by
  refine ⟨rfl, ?_, ?_⟩ <;>
    simp [bid, hasBalanceSnapshot, log_current_balance, balanceFailEntry]

/-- C8 (amended): for every mutating operation whose ledger transaction
fails, when the balance reads used for logging succeed the failure is
caught inside the operation, logged with a Failed-status audit row plus a
balance snapshot, and the only value surfaced to the caller is a boolean
success/failure return (`start_auction` returns false; bid, reveal and
closeAuction surface nothing).  When the balance read also fails (a
connection-level ledger failure), the except handlers of start_auction,
bid and reveal perform an unguarded `get_balance` that re-raises: only
Failed balance rows without a snapshot are written and the exception
escapes the operation; closeAuction alone absorbs every failure, because
its handler's event log is guarded. -/
theorem C8_failure_logging (account : String) (b : ℚ)
    (st : AgentState) (now : ℚ) (bs re : ℕ) (e : ℚ) (p : ℕ)
    (hguard : ¬(bs ≠ 0 ∧ now < (re : ℚ))) (hround : 0 < pythonRound e)
    (hbid : ¬ st.bid_amount ≤ 0) :
    ((start_auction now bs re e (some b) false).retval = some false ∧
     hasFailedEntry (start_auction now bs re e (some b) false).logs = true ∧
     hasBalanceSnapshot (start_auction now bs re e (some b) false).logs = true) ∧
    ((bid p (some b) st false).raised = false ∧
     hasFailedEntry (bid p (some b) st false).logs = true ∧
     hasBalanceSnapshot (bid p (some b) st false).logs = true) ∧
    ((reveal (some b) st false).raised = false ∧
     hasFailedEntry (reveal (some b) st false).logs = true ∧
     hasBalanceSnapshot (reveal (some b) st false).logs = true) ∧
    (hasFailedEntry (closeAuction account b st none).logs = true ∧
     hasBalanceSnapshot (closeAuction account b st none).logs = true) ∧
    ((start_auction now bs re e none false).retval = none ∧
     hasFailedEntry (start_auction now bs re e none false).logs = true ∧
     hasBalanceSnapshot (start_auction now bs re e none false).logs = false) ∧
    ((bid p none st false).raised = true ∧
     hasFailedEntry (bid p none st false).logs = true ∧
     hasBalanceSnapshot (bid p none st false).logs = false) ∧
    ((reveal none st false).raised = true ∧
     hasFailedEntry (reveal none st false).logs = true ∧
     hasBalanceSnapshot (reveal none st false).logs = false) := by
  refine ⟨?_, ?_, ?_, ?_, ?_, ?_, ?_⟩
  · unfold start_auction
    rw [if_neg hguard, if_neg (not_le.mpr hround)]
    simp [hasFailedEntry, hasBalanceSnapshot, log_current_balance,
      balanceUpdateEntry]
  · simp [bid, hasFailedEntry, hasBalanceSnapshot, log_current_balance,
      balanceUpdateEntry]
  · unfold reveal
    rw [if_neg hbid]
    simp [hasFailedEntry, hasBalanceSnapshot, log_current_balance,
      balanceUpdateEntry]
  · simp [closeAuction, hasFailedEntry, hasBalanceSnapshot,
      balanceUpdateEntry]
  · unfold start_auction
    rw [if_neg hguard, if_neg (not_le.mpr hround)]
    simp [hasFailedEntry, hasBalanceSnapshot, log_current_balance,
      balanceFailEntry]
  · simp [bid, hasFailedEntry, hasBalanceSnapshot, log_current_balance,
      balanceFailEntry]
  · unfold reveal
    rw [if_neg hbid]
    simp [hasFailedEntry, hasBalanceSnapshot, log_current_balance,
      balanceFailEntry]

/-- Witness for C8 (amended) at concrete inputs on every failure path. -/
theorem C8_failure_logging_witness :
    ((start_auction 1 0 0 3 (some 5) false).retval = some false ∧
     hasFailedEntry (start_auction 1 0 0 3 (some 5) false).logs = true ∧
     hasBalanceSnapshot (start_auction 1 0 0 3 (some 5) false).logs = true) ∧
    ((bid 2 (some 5) ⟨0, 0, 3⟩ false).raised = false ∧
     hasFailedEntry (bid 2 (some 5) ⟨0, 0, 3⟩ false).logs = true ∧
     hasBalanceSnapshot (bid 2 (some 5) ⟨0, 0, 3⟩ false).logs = true) ∧
    ((reveal (some 5) ⟨0, 0, 3⟩ false).raised = false ∧
     hasFailedEntry (reveal (some 5) ⟨0, 0, 3⟩ false).logs = true ∧
     hasBalanceSnapshot (reveal (some 5) ⟨0, 0, 3⟩ false).logs = true) ∧
    (hasFailedEntry (closeAuction "0xA" 5 ⟨0, 0, 3⟩ none).logs = true ∧
     hasBalanceSnapshot (closeAuction "0xA" 5 ⟨0, 0, 3⟩ none).logs = true) ∧
    ((start_auction 1 0 0 3 none false).retval = none ∧
     hasFailedEntry (start_auction 1 0 0 3 none false).logs = true ∧
     hasBalanceSnapshot (start_auction 1 0 0 3 none false).logs = false) ∧
    ((bid 2 none ⟨0, 0, 3⟩ false).raised = true ∧
     hasFailedEntry (bid 2 none ⟨0, 0, 3⟩ false).logs = true ∧
     hasBalanceSnapshot (bid 2 none ⟨0, 0, 3⟩ false).logs = false) ∧
    ((reveal none ⟨0, 0, 3⟩ false).raised = true ∧
     hasFailedEntry (reveal none ⟨0, 0, 3⟩ false).logs = true ∧
     hasBalanceSnapshot (reveal none ⟨0, 0, 3⟩ false).logs = false) :=
  C8_failure_logging "0xA" 5 ⟨0, 0, 3⟩ 1 0 0 3 2 (by simp)
    (by norm_num [pythonRound]) (by norm_num)

end EnergyMAS
